import Mathlib

/-!
# Verification of the auth-gateway Clients / Accounts modules

A shallow embedding of the Clients CRUD module (`createClient`, `addRoles`,
`getClientsForOrgHandler`, `postClientHandler`), the Accounts route
registration with its JSON body-parsing middleware (`getParseBodyFunc`,
`register`), and the `mockCache` collaborator, together with theorems about
them.

Conventions of the embedding:
* Effects of `io.get` / `io.save` are made explicit: handlers return the
  request outcome (`Except Err Resp`) together with the list of I/O
  operations (`Op`) they performed, in order.
* Random values produced inside a function (the 32-byte hex client secret,
  the database-generated id of a saved record) become explicit parameters,
  as does the bcrypt hash function and the `authorizeCallerForRole`
  authorization engine (whose source lives outside the files embedded
  here).
* Machine integers never overflow in the embedded code paths, so numbers
  are plain `Nat`.
-/

namespace AuthGateway

/-- Client roles. Only `EXTERNAL` is used by the embedded code
(`createClient` grants `ClientRoles.EXTERNAL`); the other constructor keeps
the type non-trivial, matching the spec's "e.g., external/internal/trusted". -/
inductive ClientRoles where
  | EXTERNAL
  | INTERNAL
deriving DecidableEq, Repr

/-- Permission levels passed to `authorizeCallerForRole` in the embedded
handlers: `"read"` and `"manage"`. -/
inductive PermLevel where
  | read
  | manage
deriving DecidableEq, Repr

/-- The identity envelope attached to an authenticated request
(`Auth.ReqInfo`): client id and roles, optional user id and roles. -/
structure ReqInfo where
  clientId : String
  clientRoles : List ClientRoles
  userId : Option String
  userRoles : List String
deriving DecidableEq, Repr

/-- A stored client record (`Auth.Db.Client`): the secret is stored only as
its bcrypt hash. -/
structure DbClient where
  id : String
  organizationId : String
  name : String
  secretBcrypt : String
  reqsPerSec : Nat
deriving DecidableEq, Repr

/-- A client-role relation record: `{ clientId, roleId }`. -/
structure ClientRoleRecord where
  clientId : String
  roleId : ClientRoles
deriving DecidableEq, Repr

/-- An organization record: `{ id, name }`. -/
structure Organization where
  id : String
  name : String
deriving DecidableEq, Repr

/-- The store visible to the embedded handlers. `io.get` is modelled as a
lookup/filter over these lists, per the collaborator contract
`get(resourceType, query, log, required?) → record | collection`, preserving
stored order. -/
structure Db where
  organizations : List Organization
  clients : List DbClient
  clientRoles : List ClientRoleRecord
deriving DecidableEq, Repr

/-- The payload passed to `io.save("clients", ...)` by `createClient`:
`{ ...newClient, secretBcrypt, reqsPerSec: 10 }`. The raw secret is not a
field of this payload type. -/
structure ClientSavePayload where
  organizationId : String
  name : String
  secretBcrypt : String
  reqsPerSec : Nat
deriving DecidableEq, Repr

/-- One I/O operation performed through the `io` collaborator. -/
inductive Op where
  | readOrg (id : String)
  | readClientById (id : String)
  | readClientsByOrg (organizationId : String)
  | readClientRoles (clientIdIn : List String)
  | saveClient (p : ClientSavePayload)
  | saveClientRole (p : ClientRoleRecord)
deriving DecidableEq, Repr

/-- The string values contained in the payload persisted by a save
operation (empty for reads). -/
def Op.savedStrings : Op → List String
  | .saveClient p => [p.organizationId, p.name, p.secretBcrypt]
  | .saveClientRole p => [p.clientId]
  | _ => []

/-- Whether an operation writes to the store. -/
def Op.isSave : Op → Bool
  | .saveClient _ => true
  | .saveClientRole _ => true
  | _ => false

/-- The input of `createClient`: `{ organizationId, name }`. -/
structure NewClient where
  organizationId : String
  name : String
deriving DecidableEq, Repr

/-- Embeds `createClient` (Clients module). `secret` stands for the value
of `randomBytes(32).toString("hex")`, `hash` for `s ↦ bcrypt.hash(s, 10)`,
and `newId` for the id the store assigns to the saved client. It saves the
client payload `{ ...newClient, secretBcrypt, reqsPerSec: 10 }`, saves one
client-role `{ clientId, roleId: ClientRoles.EXTERNAL }`, and returns the
stored client together with the raw secret. -/
def createClient (hash : String → String) (secret newId : String)
    (newClient : NewClient) : (DbClient × String) × List Op :=
  let secretBcrypt := hash secret
  let payload : ClientSavePayload :=
    { organizationId := newClient.organizationId, name := newClient.name,
      secretBcrypt := secretBcrypt, reqsPerSec := 10 }
  let client : DbClient :=
    { id := newId, organizationId := newClient.organizationId,
      name := newClient.name, secretBcrypt := secretBcrypt, reqsPerSec := 10 }
  let roleRec : ClientRoleRecord := { clientId := newId, roleId := ClientRoles.EXTERNAL }
  ((client, secret), [Op.saveClient payload, Op.saveClientRole roleRec])

/-- A client record in its API form (`Auth.Api.Client`): the bcrypt hash is
not exposed and a `roles` array is carried instead. Modelled from the spec:
the translator `T.Clients.dbToApi` is outside the embedded files; per the
data model ("secret (hashed, never stored raw)", clients carry a "set of
ClientRoles") it keeps id, organizationId and name, drops the hash, and
leaves `roles` to be filled in by `addRoles`. -/
structure ApiClient where
  id : String
  organizationId : String
  name : String
  roles : List ClientRoles
deriving DecidableEq, Repr

/-- Modelled from the spec: `T.Clients.dbToApi` translates a stored client
to its API form, preserving id, organizationId and name and omitting the
secret hash. -/
def dbToApi (c : DbClient) : ApiClient :=
  { id := c.id, organizationId := c.organizationId, name := c.name, roles := [] }

/-- Embeds the list overload of `addRoles`: fetch the client-roles whose
`clientId` is in the list of ids (`io.get("client-roles", { _t: "filter",
clientIdIn })`), then set each client's `roles` to the `roleId`s of its own
rows. -/
def addRoles (db : Db) (clients : List ApiClient) : List ApiClient × List Op :=
  let clientIds := clients.map (fun u => u.id)
  let roles := db.clientRoles.filter (fun row => clientIds.contains row.clientId)
  let add : ApiClient → ApiClient := fun client =>
    { client with
      roles := (roles.filter (fun row => row.clientId == client.id)).map
        (fun row => row.roleId) }
  (clients.map add, [Op.readClientRoles clientIds])

/-- Embeds the single-client overload of `addRoles` (`clientIds :=
[client.id]`). -/
def addRolesSingle (db : Db) (client : ApiClient) : ApiClient × List Op :=
  let clientIds := [client.id]
  let roles := db.clientRoles.filter (fun row => clientIds.contains row.clientId)
  ({ client with
     roles := (roles.filter (fun row => row.clientId == client.id)).map
       (fun row => row.roleId) },
   [Op.readClientRoles clientIds])

/-- The error kinds raised by the embedded code (from `@wymp/http-errors`).
Machine codes are carried where the source passes one; `badRequest none`
stands for a `BadRequest` raised with the library's default code. -/
inductive Err where
  | notAuthd
  | internalServerError (code : String)
  | invalidBody
  | notFound (code : String)
  | forbidden
  | unsupportedMediaType
  | badRequest (code : Option String)
deriving DecidableEq, Repr

/-- The data of the 201 response of `POST /organizations/:id/clients`:
`{ ...finishedClient, secret }`. -/
structure ApiClientAndSecret where
  client : ApiClient
  secret : String
deriving DecidableEq, Repr

/-- Response bodies produced by the embedded handlers. -/
inductive RespBody where
  | singleClient (data : ApiClient)
  | clientCollection (data : List ApiClient)
  | createdClient (data : ApiClientAndSecret)
deriving DecidableEq, Repr

/-- An HTTP response: status code and body. -/
structure Resp where
  status : Nat
  body : RespBody
deriving DecidableEq, Repr

/-- The body of a request as seen by `PostClientValidator`: either missing,
or a `{ data: { type, name } }` document, or something else entirely. -/
inductive ReqBody where
  | missing
  | clientPayload (type : String) (clientName : String)
  | other
deriving DecidableEq, Repr

/-- Embeds `PostClientValidator.validate`: succeeds exactly on
`{ data: { type: "clients", name } }`, yielding the name. -/
def validatePostClientBody : ReqBody → Option String
  | .clientPayload t n => if t = "clients" then some n else none
  | _ => none

/-- A request to the Clients endpoints: the auth envelope (`none` when
`Http.assertAuthdReq` / `Common.assertAuth` would throw), the `orgId` and
`id` route parameters, and the body. -/
structure ClientsReq where
  auth : Option ReqInfo
  paramsOrgId : Option String
  paramsId : Option String
  body : ReqBody
deriving DecidableEq, Repr

/-- The authorization engine `authorizeCallerForRole(organizationId, auth,
role, r)` is embedded abstractly as a boolean predicate: `false` means it
throws, aborting the handler. -/
def AuthzEngine : Type := String → ReqInfo → PermLevel → Bool

/-- Embeds `getClientsForOrgHandler` (`GET /organizations/:orgId/clients`
and `GET /organizations/:orgId/clients/:id`): assert the request is
authenticated, require the `orgId` parameter (else
`InternalServerError("GET-CLIENTS-BAD-PARAMS")`), require the organization
to exist, authorize the caller at level `read`, then either fetch one
client by id — rejecting with `NotFound("GET-CLIENT_CLIENT-NOT-FOUND")`
when its `organizationId` differs from the path parameter — or list the
organization's clients; roles are attached via `addRoles` before the 200
response. -/
def getClientsForOrgHandler (authz : AuthzEngine) (db : Db)
    (req : ClientsReq) : Except Err Resp × List Op :=
  match req.auth with
  | none => (Except.error Err.notAuthd, [])
  | some auth =>
    match req.paramsOrgId with
    | none => (Except.error (Err.internalServerError "GET-CLIENTS-BAD-PARAMS"), [])
    | some organizationId =>
      if (db.organizations.find? (fun o => o.id == organizationId)).isNone then
        (Except.error (Err.notFound "RESOURCE-NOT-FOUND"), [Op.readOrg organizationId])
      else if !(authz organizationId auth PermLevel.read) then
        (Except.error Err.forbidden, [Op.readOrg organizationId])
      else
        match req.paramsId with
        | some clientId =>
          match db.clients.find? (fun c => c.id == clientId) with
          | none =>
            (Except.error (Err.notFound "RESOURCE-NOT-FOUND"),
             [Op.readOrg organizationId, Op.readClientById clientId])
          | some client =>
            if client.organizationId != organizationId then
              (Except.error (Err.notFound "GET-CLIENT_CLIENT-NOT-FOUND"),
               [Op.readOrg organizationId, Op.readClientById clientId])
            else
              let r := addRolesSingle db (dbToApi client)
              (Except.ok { status := 200, body := RespBody.singleClient r.1 },
               [Op.readOrg organizationId, Op.readClientById clientId] ++ r.2)
        | none =>
          let rows := db.clients.filter (fun c => c.organizationId == organizationId)
          let r := addRoles db (rows.map dbToApi)
          (Except.ok { status := 200, body := RespBody.clientCollection r.1 },
           [Op.readOrg organizationId, Op.readClientsByOrg organizationId] ++ r.2)

/-- Embeds `postClientHandler` (`POST /organizations/:id/clients`): assert
the request is authenticated, require the `orgId` parameter (else
`InternalServerError("GET-CLIENTS-BAD-PARAMS")`), validate the body,
require the organization to exist, authorize the caller at level `manage`,
create the client via `createClient`, attach roles (reading the store as
updated by the two saves), and answer 201 with
`{ ...finishedClient, secret }`. -/
def postClientHandler (authz : AuthzEngine) (hash : String → String)
    (secret newId : String) (db : Db) (req : ClientsReq) :
    Except Err Resp × List Op :=
  match req.auth with
  | none => (Except.error Err.notAuthd, [])
  | some auth =>
    match req.paramsOrgId with
    | none => (Except.error (Err.internalServerError "GET-CLIENTS-BAD-PARAMS"), [])
    | some organizationId =>
      match validatePostClientBody req.body with
      | none => (Except.error Err.invalidBody, [])
      | some clientName =>
        if (db.organizations.find? (fun o => o.id == organizationId)).isNone then
          (Except.error (Err.notFound "RESOURCE-NOT-FOUND"), [Op.readOrg organizationId])
        else if !(authz organizationId auth PermLevel.manage) then
          (Except.error Err.forbidden, [Op.readOrg organizationId])
        else
          let c := createClient hash secret newId
            { organizationId := organizationId, name := clientName }
          let client := c.1.1
          let newRole : ClientRoleRecord :=
            { clientId := client.id, roleId := ClientRoles.EXTERNAL }
          let db' : Db :=
            { db with clients := db.clients ++ [client],
                      clientRoles := db.clientRoles ++ [newRole] }
          let r := addRolesSingle db' (dbToApi client)
          let data : ApiClientAndSecret := { client := r.1, secret := c.1.2 }
          (Except.ok { status := 201, body := RespBody.createdClient data },
           [Op.readOrg organizationId] ++ c.2 ++ r.2)

/-! ## The `mockCache` collaborator

The cache side effects are embedded as explicit state passing: a
computation `compute : σ → α × σ` stands for the thunk `v` together with
whatever effects running it has on the world `σ`. -/

/-- Embeds `mockCache.get`: `get(k, v, ttl?, log?) { return v(); }` — the
thunk is invoked unconditionally; no key is consulted and nothing is
stored. -/
def mockCacheGet {σ α : Type} (k : String) (compute : σ → α × σ)
    (ttl : Option Nat) (s : σ) : α × σ :=
  compute s

/-- Embeds `mockCache.clear`: `clear(k?) {}` — a no-op. -/
def mockCacheClear {σ : Type} (k : Option String) (s : σ) : σ := s

/-! ## Accounts module: body parsing and route registration -/

/-- What the `json` parser middleware hands to the callback in
`getParseBodyFunc`: an error, or a parsed `req.body` (`none` when the body
is absent/unparsed, otherwise the keys of the parsed object). -/
def ParseOutcome : Type := Except Err (Option (List String))

/-- Embeds JavaScript's `String.prototype.toLowerCase` for the header
values at hand: lowercase character by character. -/
def strToLower (s : String) : String := String.mk (s.data.map Char.toLower)

/-- Embeds the middleware returned by `getParseBodyFunc(allowBlankBodies)`:
reject with `UnsupportedMediaType` unless a `content-type` header is
present and lowercases to `"application/json"`; then run the JSON parser,
propagating its error; then, unless blank bodies are allowed, reject a
missing or empty-object body with a `BadRequest` (library default code).
`none` means the middleware calls through to the route handler. -/
def parseBodyStep (allowBlankBodies : Bool) (contentType : Option String)
    (parse : ParseOutcome) : Option Err :=
  match contentType with
  | none => some Err.unsupportedMediaType
  | some ct =>
    if strToLower ct ≠ "application/json" then some Err.unsupportedMediaType
    else
      match parse with
      | Except.error e => some e
      | Except.ok body =>
        if !allowBlankBodies &&
            (match body with | none => true | some keys => keys.isEmpty) then
          some (Err.badRequest none)
        else
          none

/-- HTTP methods used by `register`. -/
inductive Method where
  | get
  | post
  | patch
  | delete
deriving DecidableEq, Repr, BEq

/-- One segment of a route pattern: a literal or a `:param`. -/
inductive Seg where
  | lit (s : String)
  | param (pname : String)
deriving DecidableEq, Repr

/-- A route pattern: its segments, and whether it ends in `/*` (which
matches one or more further segments; a path `/a/b/` has a trailing empty
segment, so `/accounts/v1/*` matches `/accounts/v1/` but not
`/accounts/v1`). Paths are embedded as their list of segments:
`/accounts/v1/users` ↦ `["accounts", "v1", "users"]`. -/
structure Pattern where
  segs : List Seg
  trailingWild : Bool
deriving DecidableEq, Repr

/-- Exact segment matching for patterns without a trailing wildcard. -/
def segsMatch : List Seg → List String → Bool
  | [], [] => true
  | Seg.lit s :: ps, x :: xs => s == x && segsMatch ps xs
  | Seg.param _ :: ps, _ :: xs => segsMatch ps xs
  | _, _ => false

/-- Segment matching for patterns with a trailing wildcard: the listed
segments are a proper prefix of the path. -/
def wildSegsMatch : List Seg → List String → Bool
  | [], rest => !rest.isEmpty
  | Seg.lit s :: ps, x :: xs => s == x && wildSegsMatch ps xs
  | Seg.param _ :: ps, _ :: xs => wildSegsMatch ps xs
  | _ :: _, [] => false

/-- Whether a pattern matches a path. -/
def Pattern.matches (p : Pattern) (path : List String) : Bool :=
  if p.trailingWild then wildSegsMatch p.segs path else segsMatch p.segs path

/-- Names for the handlers registered by the Accounts module's
`register`. -/
inductive RouteTag where
  | orgsGet
  | orgsPost
  | orgsPatch
  | orgsDelete
  | usersGet
  | userById
  | usersPost
  | usersPatch
  | userChangePassword
  | usersDelete
  | userMemberships
  | orgMembershipsGet
  | orgMembershipsPost
  | membershipPatch
  | membershipDelete
  | sessionsGetAll
  | userSessions
  | loginEmail
  | loginPassword
  | loginCode
  | loginTotp
  | sessionsRefresh
  | sessionsLogout
  | unknownEndpoint
deriving DecidableEq, Repr

/-- A registered route: the method it answers (`none` for `http.all`), its
pattern(s) (`http.get` may register an array of paths), the body-parsing
middleware in front of the handler (`none`: no parser; `some b`: the
middleware `getParseBodyFunc(b)`), and the handler's tag. -/
structure Route where
  method : Option Method
  patterns : List Pattern
  bodyParser : Option Bool
  tag : RouteTag
deriving DecidableEq, Repr

/-- Whether a route answers the given method and path. -/
def Route.matches (rt : Route) (m : Method) (path : List String) : Bool :=
  (match rt.method with | none => true | some m2 => m2 == m) &&
    rt.patterns.any (fun p => p.matches path)

/-- Pattern `/accounts/v1/<tail...>`. -/
def av1 (tail : List Seg) : Pattern :=
  { segs := Seg.lit "accounts" :: Seg.lit "v1" :: tail, trailingWild := false }

/-- The wildcard pattern `/accounts/v1/*` of the fallthrough handler. -/
def av1Wild : Pattern :=
  { segs := [Seg.lit "accounts", Seg.lit "v1"], trailingWild := true }

/-- The non-fallthrough routes registered by the Accounts module's
`register`, in registration order. -/
def accountsRoutes : List Route :=
  [{ method := some Method.get,
     patterns := [av1 [Seg.lit "organizations"], av1 [Seg.lit "organizations", Seg.param "id"]],
     bodyParser := none, tag := RouteTag.orgsGet },
   { method := some Method.post, patterns := [av1 [Seg.lit "organizations"]],
     bodyParser := some false, tag := RouteTag.orgsPost },
   { method := some Method.patch, patterns := [av1 [Seg.lit "organizations", Seg.param "id"]],
     bodyParser := some false, tag := RouteTag.orgsPatch },
   { method := some Method.delete, patterns := [av1 [Seg.lit "organizations", Seg.param "id"]],
     bodyParser := none, tag := RouteTag.orgsDelete },
   { method := some Method.get, patterns := [av1 [Seg.lit "users"]],
     bodyParser := none, tag := RouteTag.usersGet },
   { method := some Method.get, patterns := [av1 [Seg.lit "users", Seg.param "id"]],
     bodyParser := none, tag := RouteTag.userById },
   { method := some Method.post, patterns := [av1 [Seg.lit "users"]],
     bodyParser := some false, tag := RouteTag.usersPost },
   { method := some Method.patch, patterns := [av1 [Seg.lit "users", Seg.param "id"]],
     bodyParser := some false, tag := RouteTag.usersPatch },
   { method := some Method.post,
     patterns := [av1 [Seg.lit "users", Seg.param "id", Seg.lit "change-password"]],
     bodyParser := some false, tag := RouteTag.userChangePassword },
   { method := some Method.delete, patterns := [av1 [Seg.lit "users", Seg.param "id"]],
     bodyParser := none, tag := RouteTag.usersDelete },
   { method := some Method.get,
     patterns := [av1 [Seg.lit "users", Seg.param "id", Seg.lit "memberships"]],
     bodyParser := none, tag := RouteTag.userMemberships },
   { method := some Method.get,
     patterns := [av1 [Seg.lit "organizations", Seg.param "id", Seg.lit "memberships"]],
     bodyParser := none, tag := RouteTag.orgMembershipsGet },
   { method := some Method.post,
     patterns := [av1 [Seg.lit "organizations", Seg.param "id", Seg.lit "memberships"]],
     bodyParser := some false, tag := RouteTag.orgMembershipsPost },
   { method := some Method.patch,
     patterns := [av1 [Seg.lit "org-memberships", Seg.param "id"]],
     bodyParser := none, tag := RouteTag.membershipPatch },
   { method := some Method.delete,
     patterns := [av1 [Seg.lit "org-memberships", Seg.param "id"]],
     bodyParser := none, tag := RouteTag.membershipDelete },
   { method := some Method.get, patterns := [av1 [Seg.lit "sessions"]],
     bodyParser := none, tag := RouteTag.sessionsGetAll },
   { method := some Method.get,
     patterns := [av1 [Seg.lit "users", Seg.param "id", Seg.lit "sessions"]],
     bodyParser := none, tag := RouteTag.userSessions },
   { method := some Method.post,
     patterns := [av1 [Seg.lit "sessions", Seg.lit "login", Seg.lit "email"]],
     bodyParser := some false, tag := RouteTag.loginEmail },
   { method := some Method.post,
     patterns := [av1 [Seg.lit "sessions", Seg.lit "login", Seg.lit "password"]],
     bodyParser := some false, tag := RouteTag.loginPassword },
   { method := some Method.post,
     patterns := [av1 [Seg.lit "sessions", Seg.lit "login", Seg.lit "code"]],
     bodyParser := some false, tag := RouteTag.loginCode },
   { method := some Method.post,
     patterns := [av1 [Seg.lit "sessions", Seg.lit "login", Seg.lit "totp"]],
     bodyParser := some false, tag := RouteTag.loginTotp },
   { method := some Method.post,
     patterns := [av1 [Seg.lit "sessions", Seg.lit "refresh"]],
     bodyParser := some false, tag := RouteTag.sessionsRefresh },
   { method := some Method.post,
     patterns := [av1 [Seg.lit "sessions", Seg.lit "logout"]],
     bodyParser := some true, tag := RouteTag.sessionsLogout }]

/-- The fallthrough route: `r.http.all("/accounts/v1/*", ...)`, registered
last. -/
def catchAllRoute : Route :=
  { method := none, patterns := [av1Wild], bodyParser := none,
    tag := RouteTag.unknownEndpoint }

/-- Every route registered by `register`, in registration order. -/
def registerRoutes : List Route := accountsRoutes ++ [catchAllRoute]

/-- The error raised by the fallthrough handler:
`BadRequest("Unknown Endpoint: ...", "ACCOUNTS-UNKNOWN-ENDPOINT")`. -/
def unknownEndpointError : Err :=
  Err.badRequest (some "ACCOUNTS-UNKNOWN-ENDPOINT")

/-- The outcome of routing one request through the gateway. -/
inductive Dispatch where
  | handled (tag : RouteTag)
  | forwarded
deriving DecidableEq, Repr

/-- Modelled from the spec: the HTTP layer tries the routes registered by
`register` in order, and "any path not matching `/accounts/v1/*` is
forwarded to the configured service for that path prefix" — i.e. a request
is handed to downstream dispatch only when no registered route matches. -/
def dispatch (m : Method) (path : List String) : Dispatch :=
  match registerRoutes.find? (fun rt => rt.matches m path) with
  | some rt => Dispatch.handled rt.tag
  | none => Dispatch.forwarded

/-! ## Concrete inputs used to instantiate theorems with hypotheses -/

/-- A concrete caller identity. -/
def wAuth : ReqInfo :=
  { clientId := "caller", clientRoles := [ClientRoles.INTERNAL],
    userId := none, userRoles := [] }

/-- A concrete organization. -/
def wOrg : Organization := { id := "org-1", name := "Acme" }

/-- A concrete client stored under a different organization than `wOrg`. -/
def wForeignClient : DbClient :=
  { id := "c-9", organizationId := "org-2", name := "Foreign",
    secretBcrypt := "somehash", reqsPerSec := 10 }

/-- A concrete store holding `wOrg` and `wForeignClient`. -/
def wDb : Db :=
  { organizations := [wOrg], clients := [wForeignClient], clientRoles := [] }

/-- A concrete stand-in for bcrypt. -/
def wHash : String → String := fun s => String.append "hashed:" s

/-- An authorization engine that always grants. -/
def wAuthzTrue : AuthzEngine := fun _ _ _ => true

/-- An authorization engine that always denies. -/
def wAuthzFalse : AuthzEngine := fun _ _ _ => false

/-- A request lacking the `orgId` route parameter. -/
def wReqNoOrg : ClientsReq :=
  { auth := some wAuth, paramsOrgId := none, paramsId := none,
    body := ReqBody.missing }

/-- A well-formed client-creation request for `wOrg`. -/
def wPostReq : ClientsReq :=
  { auth := some wAuth, paramsOrgId := some "org-1", paramsId := none,
    body := ReqBody.clientPayload "clients" "My Client" }

/-- A singular GET request for `wForeignClient` through `wOrg`'s path. -/
def wGetForeignReq : ClientsReq :=
  { auth := some wAuth, paramsOrgId := some "org-1", paramsId := some "c-9",
    body := ReqBody.missing }

/-- A concrete `NewClient` input. -/
def wNewClient : NewClient := { organizationId := "org-1", name := "My Client" }

/-- The login/email route entry, as registered. -/
def wLoginEmailRoute : Route :=
  { method := some Method.post,
    patterns := [av1 [Seg.lit "sessions", Seg.lit "login", Seg.lit "email"]],
    bodyParser := some false, tag := RouteTag.loginEmail }

/-! ## Helper lemmas -/

/-- Restricting client-role rows to those whose `clientId` is in `ids` and
then to those matching a single `cid ∈ ids` is the same as the single
filter on `cid`. -/
theorem filter_clientIdIn_then_eq (rows : List ClientRoleRecord)
    (ids : List String) (cid : String) (hmem : cid ∈ ids) :
    (rows.filter (fun row => ids.contains row.clientId)).filter
        (fun row => row.clientId == cid) =
      rows.filter (fun row => row.clientId == cid) := by
  rw [List.filter_filter]
  refine List.filter_congr ?_
  intro row _
  by_cases h : row.clientId = cid
  · subst h
    simp [hmem]
  · simp [h]

/-- `find?` over a list ending in an element satisfying the predicate is
some element. -/
theorem find?_append_singleton_isSome {α : Type} (l : List α) (c : α)
    (p : α → Bool) (hc : p c = true) : ((l ++ [c]).find? p).isSome := by
  rw [List.find?_isSome]
  exact ⟨c, by simp, hc⟩

/-- When no element of `l` satisfies the predicate but the appended `c`
does, `find?` returns `c`. -/
theorem find?_append_singleton_of_all_false {α : Type} (l : List α) (c : α)
    (p : α → Bool) (h : ∀ x ∈ l, p x = false) (hc : p c = true) :
    (l ++ [c]).find? p = some c := by
  induction l with
  | nil => simp [List.find?, hc]
  | cons a as ih =>
    have ha : p a = false := h a (List.mem_cons_self a as)
    rw [List.cons_append, List.find?_cons_of_neg _ (by simp [ha])]
    exact ih (fun x hx => h x (List.mem_cons_of_mem a hx))

/-! ## Claim theorems -/

/-- C10: every client created through `createClient` is persisted with a
rate-limit budget of exactly 10 requests per second and granted exactly one
role, `ClientRoles.EXTERNAL`, regardless of the organizationId and name
supplied by the caller: its save trace is exactly one client save with
`reqsPerSec = 10` followed by one client-role save with roleId
`EXTERNAL`. -/
theorem createClient_fixed_budget_and_role (hash : String → String)
    (secret newId : String) (nc : NewClient) :
    (createClient hash secret newId nc).2 =
      [Op.saveClient ⟨nc.organizationId, nc.name, hash secret, 10⟩,
       Op.saveClientRole ⟨newId, ClientRoles.EXTERNAL⟩] := rfl

/-- C4 counterexample: the cache wired in by `mockCache` does not coalesce
and does not store. With a computation that counts its own invocations,
a second `get` on the very key just computed invokes the computation again
(the counter reaches 2), and `clear` on that key changes nothing. -/
theorem mockCache_get_recomputes_counterexample :
    (mockCacheGet "k" (fun n => (n, n + 1)) none
        ((mockCacheGet "k" (fun n => (n, n + 1)) none 0).2)).2 = 2
    ∧ mockCacheClear (some "k") (2 : Nat) = 2 := ⟨rfl, rfl⟩

/-- C4 (amended): the cache collaborator installed by `mockCache` is a
pass-through: `get(key, compute, ttl)` invokes `compute` on every call —
there is no per-key entry, no coalescing of a second request with an
in-flight one — and `clear(key)` is a no-op; consequently every later
`get` recomputes unconditionally. -/
theorem mockCache_passthrough {σ α : Type} (k : String)
    (compute : σ → α × σ) (ttl : Option Nat) (s : σ) (k2 : Option String)
    (s2 : σ) :
    mockCacheGet k compute ttl s = compute s ∧ mockCacheClear k2 s2 = s2 :=
  ⟨rfl, rfl⟩

/-- C5: `addRoles` gives each client a `roles` array equal to exactly the
roleIds of the client-role records whose `clientId` equals that client's id
(empty when there are none), leaves every other field unchanged, and
preserves the order of the input list — the output is the pointwise update
of the input; likewise for the single-client overload. -/
theorem addRoles_assigns_own_roles (db : Db) (clients : List ApiClient)
    (c : ApiClient) :
    (addRoles db clients).1 = clients.map (fun cl =>
      { cl with roles := (db.clientRoles.filter
          (fun row => row.clientId == cl.id)).map (fun row => row.roleId) })
    ∧ (addRolesSingle db c).1 =
      { c with roles := (db.clientRoles.filter
          (fun row => row.clientId == c.id)).map (fun row => row.roleId) } := by
  constructor
  · simp only [addRoles]
    refine List.map_congr_left ?_
    intro cl hcl
    have hmem : cl.id ∈ clients.map (fun u => u.id) :=
      List.mem_map_of_mem _ hcl
    rw [filter_clientIdIn_then_eq db.clientRoles _ cl.id hmem]
  · simp only [addRolesSingle]
    rw [filter_clientIdIn_then_eq db.clientRoles _ c.id (List.mem_singleton.mpr rfl)]

/-- C8: on an authenticated request reaching either handler with the
`orgId` route parameter missing, the request fails with an
`InternalServerError` carrying the machine code `GET-CLIENTS-BAD-PARAMS` —
not a validation or not-found error — and no I/O operation at all is
performed afterwards. -/
theorem handlers_missing_orgId (authz : AuthzEngine) (hash : String → String)
    (secret newId : String) (db : Db) (req : ClientsReq) (auth : ReqInfo)
    (hAuth : req.auth = some auth) (hOrg : req.paramsOrgId = none) :
    getClientsForOrgHandler authz db req =
      (Except.error (Err.internalServerError "GET-CLIENTS-BAD-PARAMS"), [])
    ∧ postClientHandler authz hash secret newId db req =
      (Except.error (Err.internalServerError "GET-CLIENTS-BAD-PARAMS"), []) := by
  constructor
  · simp [getClientsForOrgHandler, hAuth, hOrg]
  · simp [postClientHandler, hAuth, hOrg]

/-- Witness for C8 at a concrete request lacking `orgId`. -/
theorem handlers_missing_orgId_witness :
    wReqNoOrg.auth = some wAuth ∧ wReqNoOrg.paramsOrgId = none
    ∧ getClientsForOrgHandler wAuthzTrue wDb wReqNoOrg =
        (Except.error (Err.internalServerError "GET-CLIENTS-BAD-PARAMS"), []) :=
  ⟨rfl, rfl,
    (handlers_missing_orgId wAuthzTrue wHash "s3cret" "client-1" wDb wReqNoOrg
      wAuth rfl rfl).1⟩

/-- C1: for every call to `createClient`, the raw client secret appears in
no payload persisted via `io.save` — the client save stores only the
bcrypt hash, in the field `secretBcrypt` — and the raw secret is returned
to the caller exactly once, inside the 201 response of the creating POST
request; later operations see only the stored hash. Hypotheses: bcrypt is
not the identity on the secret, and the independently chosen organization
id, client name and database-assigned id differ from the fresh 256-bit
random secret. -/
theorem createClient_secret_never_saved (hash : String → String)
    (secret newId : String) (nc : NewClient)
    (hHash : hash secret ≠ secret) (hOrg : nc.organizationId ≠ secret)
    (hName : nc.name ≠ secret) (hId : newId ≠ secret) :
    (∀ op ∈ (createClient hash secret newId nc).2,
        ∀ s ∈ Op.savedStrings op, s ≠ secret)
    ∧ (∀ op ∈ (createClient hash secret newId nc).2, ∀ p,
        op = Op.saveClient p → p.secretBcrypt = hash secret)
    ∧ (createClient hash secret newId nc).1.2 = secret
    ∧ (∀ (authz : AuthzEngine) (db : Db) (req : ClientsReq) (resp : Resp),
        (postClientHandler authz hash secret newId db req).1 = Except.ok resp →
        resp.status = 201
        ∧ ∃ fc, resp.body = RespBody.createdClient ⟨fc, secret⟩) := by
  refine ⟨?_, ?_, rfl, ?_⟩
  · intro op hop s hs
    simp only [createClient, List.mem_cons, List.not_mem_nil, or_false] at hop
    rcases hop with rfl | rfl
    · simp only [Op.savedStrings, List.mem_cons, List.not_mem_nil, or_false] at hs
      rcases hs with rfl | rfl | rfl
      · exact hOrg
      · exact hName
      · exact hHash
    · simp only [Op.savedStrings, List.mem_cons, List.not_mem_nil, or_false] at hs
      rcases hs with rfl
      exact hId
  · intro op hop p hEq
    simp only [createClient, List.mem_cons, List.not_mem_nil, or_false] at hop
    rcases hop with rfl | rfl
    · cases hEq
      rfl
    · exact absurd hEq (by simp)
  · intro authz db req resp hOk
    simp only [postClientHandler] at hOk
    split at hOk
    · exact absurd hOk (by simp)
    split at hOk
    · exact absurd hOk (by simp)
    split at hOk
    · exact absurd hOk (by simp)
    split at hOk
    · exact absurd hOk (by simp)
    split at hOk
    · exact absurd hOk (by simp)
    cases hOk
    exact ⟨rfl, _, rfl⟩

/-- Witness for C1 at a concrete secret, hash, id and input. -/
theorem createClient_secret_never_saved_witness :
    wHash "s3cret" ≠ "s3cret" ∧ wNewClient.organizationId ≠ "s3cret"
    ∧ wNewClient.name ≠ "s3cret" ∧ "client-1" ≠ "s3cret"
    ∧ (∀ op ∈ (createClient wHash "s3cret" "client-1" wNewClient).2,
        ∀ s ∈ Op.savedStrings op, s ≠ "s3cret")
    ∧ (createClient wHash "s3cret" "client-1" wNewClient).1.2 = "s3cret" :=
  have h := createClient_secret_never_saved wHash "s3cret" "client-1" wNewClient
    (by decide) (by decide) (by decide) (by decide)
  ⟨by decide, by decide, by decide, by decide, h.1, h.2.2.1⟩

/-- C2: a success of the list/get handler implies the caller was authorized
at level `read` for the organization named in the path, a success of the
create handler implies authorization at level `manage`, and when
authorization fails in `postClientHandler` the request ends in an error
with no client record and no client-role record saved. -/
theorem handlers_authorize (authz : AuthzEngine) (hash : String → String)
    (secret newId : String) (db : Db) (req : ClientsReq) :
    (∀ resp, (getClientsForOrgHandler authz db req).1 = Except.ok resp →
      ∃ auth orgId, req.auth = some auth ∧ req.paramsOrgId = some orgId
        ∧ authz orgId auth PermLevel.read = true)
    ∧ (∀ resp,
        (postClientHandler authz hash secret newId db req).1 = Except.ok resp →
      ∃ auth orgId, req.auth = some auth ∧ req.paramsOrgId = some orgId
        ∧ authz orgId auth PermLevel.manage = true)
    ∧ (∀ auth orgId, req.auth = some auth → req.paramsOrgId = some orgId →
        authz orgId auth PermLevel.manage = false →
        (∃ e, (postClientHandler authz hash secret newId db req).1 =
          Except.error e)
        ∧ ∀ op ∈ (postClientHandler authz hash secret newId db req).2,
            op.isSave = false) := by
  refine ⟨?_, ?_, ?_⟩
  · intro resp hOk
    cases hA : req.auth with
    | none => simp [getClientsForOrgHandler, hA] at hOk
    | some auth =>
      cases hO : req.paramsOrgId with
      | none => simp [getClientsForOrgHandler, hA, hO] at hOk
      | some orgId =>
        refine ⟨auth, orgId, rfl, rfl, ?_⟩
        simp only [getClientsForOrgHandler, hA, hO] at hOk
        split at hOk
        · exact absurd hOk (by simp)
        split at hOk
        · exact absurd hOk (by simp)
        next h =>
          simpa using h
  · intro resp hOk
    cases hA : req.auth with
    | none => simp [postClientHandler, hA] at hOk
    | some auth =>
      cases hO : req.paramsOrgId with
      | none => simp [postClientHandler, hA, hO] at hOk
      | some orgId =>
        refine ⟨auth, orgId, rfl, rfl, ?_⟩
        simp only [postClientHandler, hA, hO] at hOk
        split at hOk
        · exact absurd hOk (by simp)
        split at hOk
        · exact absurd hOk (by simp)
        split at hOk
        · exact absurd hOk (by simp)
        next h =>
          simpa using h
  · intro auth orgId hA hO hAzF
    cases hV : validatePostClientBody req.body with
    | none =>
      refine ⟨⟨Err.invalidBody, ?_⟩, ?_⟩ <;>
        simp [postClientHandler, hA, hO, hV]
    | some clientName =>
      by_cases hE :
          (db.organizations.find? (fun o => o.id == orgId)).isNone = true
      · refine ⟨⟨Err.notFound "RESOURCE-NOT-FOUND", ?_⟩, ?_⟩ <;>
          simp [postClientHandler, hA, hO, hV, hE, Op.isSave]
      · refine ⟨⟨Err.forbidden, ?_⟩, ?_⟩ <;>
          simp [postClientHandler, hA, hO, hV, hE, hAzF, Op.isSave]

/-- Witness for C2: with an always-denying authorization engine, the
concrete creation request errors out and saves nothing. -/
theorem handlers_authorize_witness :
    wPostReq.auth = some wAuth ∧ wPostReq.paramsOrgId = some "org-1"
    ∧ wAuthzFalse "org-1" wAuth PermLevel.manage = false
    ∧ ((∃ e, (postClientHandler wAuthzFalse wHash "s3cret" "client-1" wDb
          wPostReq).1 = Except.error e)
      ∧ ∀ op ∈ (postClientHandler wAuthzFalse wHash "s3cret" "client-1" wDb
          wPostReq).2, op.isSave = false) :=
  ⟨rfl, rfl, rfl,
    (handlers_authorize wAuthzFalse wHash "s3cret" "client-1" wDb
      wPostReq).2.2 wAuth "org-1" rfl rfl rfl⟩

/-- C3: when the requested client exists but its `organizationId` differs
from the `orgId` path parameter, the singular GET fails with a `NotFound`
error (code `GET-CLIENT_CLIENT-NOT-FOUND`); and every singular 200
response of `getClientsForOrgHandler` carries a client whose
`organizationId` equals the `orgId` path parameter. -/
theorem getClient_org_scoping (authz : AuthzEngine) (db : Db)
    (req : ClientsReq) (auth : ReqInfo) (orgId clientId : String)
    (client : DbClient) (hA : req.auth = some auth)
    (hO : req.paramsOrgId = some orgId) (hC : req.paramsId = some clientId)
    (hOrgEx : (db.organizations.find? (fun o => o.id == orgId)).isNone = false)
    (hAz : authz orgId auth PermLevel.read = true)
    (hFind : db.clients.find? (fun c => c.id == clientId) = some client)
    (hMismatch : client.organizationId ≠ orgId) :
    (getClientsForOrgHandler authz db req).1 =
      Except.error (Err.notFound "GET-CLIENT_CLIENT-NOT-FOUND")
    ∧ ∀ (authz2 : AuthzEngine) (db2 : Db) (req2 : ClientsReq) (resp : Resp)
        (c : ApiClient),
        (getClientsForOrgHandler authz2 db2 req2).1 = Except.ok resp →
        resp.body = RespBody.singleClient c →
        ∃ orgId2, req2.paramsOrgId = some orgId2
          ∧ c.organizationId = orgId2 := by
  constructor
  · have hb : (client.organizationId != orgId) = true :=
      bne_iff_ne.mpr hMismatch
    simp [getClientsForOrgHandler, hA, hO, hC, hOrgEx, hAz, hFind, hb]
  · intro authz2 db2 req2 resp c hOk hBody
    cases hA2 : req2.auth with
    | none => simp [getClientsForOrgHandler, hA2] at hOk
    | some auth2 =>
      cases hO2 : req2.paramsOrgId with
      | none => simp [getClientsForOrgHandler, hA2, hO2] at hOk
      | some orgId2 =>
        refine ⟨orgId2, rfl, ?_⟩
        simp only [getClientsForOrgHandler, hA2, hO2] at hOk
        split at hOk
        · exact absurd hOk (by simp)
        split at hOk
        · exact absurd hOk (by simp)
        split at hOk
        · -- singular branch
          split at hOk
          · exact absurd hOk (by simp)
          · split at hOk
            · exact absurd hOk (by simp)
            next client2 heqF hNoMis =>
              cases hOk
              simp only [RespBody.singleClient.injEq] at hBody
              rw [← hBody]
              simpa using hNoMis
        · -- collection branch: its 200 body is not singular
          cases hOk
          simp at hBody

/-- Witness for C3: fetching the client stored under `org-2` through
`org-1`'s path yields the not-found error. -/
theorem getClient_org_scoping_witness :
    wGetForeignReq.auth = some wAuth
    ∧ wGetForeignReq.paramsOrgId = some "org-1"
    ∧ wGetForeignReq.paramsId = some "c-9"
    ∧ (wDb.organizations.find? (fun o => o.id == "org-1")).isNone = false
    ∧ wAuthzTrue "org-1" wAuth PermLevel.read = true
    ∧ wDb.clients.find? (fun c => c.id == "c-9") = some wForeignClient
    ∧ wForeignClient.organizationId ≠ "org-1"
    ∧ (getClientsForOrgHandler wAuthzTrue wDb wGetForeignReq).1 =
        Except.error (Err.notFound "GET-CLIENT_CLIENT-NOT-FOUND") :=
  ⟨rfl, rfl, rfl, by decide, rfl, by decide, by decide,
    (getClient_org_scoping wAuthzTrue wDb wGetForeignReq wAuth "org-1" "c-9"
      wForeignClient rfl rfl rfl (by decide) rfl (by decide) (by decide)).1⟩

/-- C6: every accounts route registered with the JSON body-parsing
middleware rejects a request whose `Content-Type` header is absent, or
whose value does not lowercase to `application/json`, with an
`UnsupportedMediaType` error before the route handler runs, whatever the
parsed body would have been. -/
theorem parseBody_requires_json (rt : Route) (ab : Bool)
    (hrt : rt ∈ registerRoutes) (hp : rt.bodyParser = some ab)
    (contentType : Option String) (parse : ParseOutcome)
    (hct : ∀ s, contentType = some s → strToLower s ≠ "application/json") :
    parseBodyStep ab contentType parse = some Err.unsupportedMediaType := by
  cases contentType with
  | none => rfl
  | some s => simp [parseBodyStep, hct s rfl]

/-- Witness for C6 at the login/email route and a `text/html` content
type. -/
theorem parseBody_requires_json_witness :
    wLoginEmailRoute ∈ registerRoutes
    ∧ wLoginEmailRoute.bodyParser = some false
    ∧ (∀ s, (some "text/html" : Option String) = some s →
        strToLower s ≠ "application/json")
    ∧ parseBodyStep false (some "text/html") (Except.ok none) =
        some Err.unsupportedMediaType :=
  ⟨by decide, rfl, fun s hs => by cases hs; decide,
    parseBody_requires_json wLoginEmailRoute false (by decide) rfl
      (some "text/html") (Except.ok none)
      (fun s hs => by cases hs; decide)⟩

/-- C7: the logout endpoint is registered with the blank-tolerant body
parser, and a blank or empty-object JSON body passes its middleware; each
of the four login steps and refresh is registered with the strict parser,
which rejects a blank or empty-object body with a `BadRequest` error
before its handler runs. -/
theorem sessions_blank_body_policy (ct : String)
    (hct : strToLower ct = "application/json") :
    (∃ rt ∈ registerRoutes, rt.tag = RouteTag.sessionsLogout)
    ∧ (∀ rt ∈ registerRoutes, rt.tag = RouteTag.sessionsLogout →
        rt.bodyParser = some true)
    ∧ parseBodyStep true (some ct) (Except.ok none) = none
    ∧ parseBodyStep true (some ct) (Except.ok (some [])) = none
    ∧ (∀ t ∈ [RouteTag.loginEmail, RouteTag.loginPassword,
        RouteTag.loginCode, RouteTag.loginTotp, RouteTag.sessionsRefresh],
        ∃ rt ∈ registerRoutes, rt.tag = t)
    ∧ (∀ rt ∈ registerRoutes, (rt.tag = RouteTag.loginEmail
        ∨ rt.tag = RouteTag.loginPassword ∨ rt.tag = RouteTag.loginCode
        ∨ rt.tag = RouteTag.loginTotp ∨ rt.tag = RouteTag.sessionsRefresh) →
        rt.bodyParser = some false)
    ∧ parseBodyStep false (some ct) (Except.ok none) =
        some (Err.badRequest none)
    ∧ parseBodyStep false (some ct) (Except.ok (some [])) =
        some (Err.badRequest none) := by
  refine ⟨by decide, by decide, ?_, ?_, by decide, by decide, ?_, ?_⟩ <;>
    simp [parseBodyStep, hct]

/-- Witness for C7 at the literal `application/json` content type. -/
theorem sessions_blank_body_policy_witness :
    strToLower "application/json" = "application/json"
    ∧ parseBodyStep true (some "application/json") (Except.ok none) = none
    ∧ parseBodyStep false (some "application/json") (Except.ok none) =
        some (Err.badRequest none) :=
  have h := sessions_blank_body_policy "application/json" (by decide)
  ⟨by decide, h.2.2.1, h.2.2.2.2.2.2.1⟩

/-- C9: a request whose path lies under `/accounts/v1/` is never handed to
downstream dispatch, and whenever it matches none of the non-fallthrough
accounts routes it is answered by the fallthrough handler, whose error is
the `BadRequest` with code `ACCOUNTS-UNKNOWN-ENDPOINT`. -/
theorem accountsV1_never_forwarded (m : Method) (rest : List String)
    (hrest : rest ≠ []) :
    dispatch m ("accounts" :: "v1" :: rest) ≠ Dispatch.forwarded
    ∧ ((∀ rt ∈ accountsRoutes,
          rt.matches m ("accounts" :: "v1" :: rest) = false) →
        dispatch m ("accounts" :: "v1" :: rest) =
          Dispatch.handled RouteTag.unknownEndpoint)
    ∧ unknownEndpointError = Err.badRequest (some "ACCOUNTS-UNKNOWN-ENDPOINT") := by
  have hcatch : catchAllRoute.matches m ("accounts" :: "v1" :: rest) = true := by
    cases rest with
    | nil => exact absurd rfl hrest
    | cons x xs =>
      simp [catchAllRoute, Route.matches, av1Wild, Pattern.matches, wildSegsMatch]
  refine ⟨?_, ?_, rfl⟩
  · intro hfwd
    have hsome := find?_append_singleton_isSome accountsRoutes catchAllRoute
      (fun rt => rt.matches m ("accounts" :: "v1" :: rest)) hcatch
    obtain ⟨rt, hrt⟩ := Option.isSome_iff_exists.mp hsome
    unfold dispatch registerRoutes at hfwd
    rw [hrt] at hfwd
    exact Dispatch.noConfusion hfwd
  · intro hnone
    unfold dispatch registerRoutes
    rw [find?_append_singleton_of_all_false accountsRoutes catchAllRoute
      (fun rt => rt.matches m ("accounts" :: "v1" :: rest)) hnone hcatch]
    rfl

/-- Witness for C9: `GET /accounts/v1/bogus` is answered by the
fallthrough handler. -/
theorem accountsV1_never_forwarded_witness :
    (["bogus"] : List String) ≠ []
    ∧ (∀ rt ∈ accountsRoutes,
        rt.matches Method.get ["accounts", "v1", "bogus"] = false)
    ∧ dispatch Method.get ["accounts", "v1", "bogus"] =
        Dispatch.handled RouteTag.unknownEndpoint :=
  ⟨by decide, by decide,
    (accountsV1_never_forwarded Method.get ["bogus"] (by decide)).2.1
      (by decide)⟩

end AuthGateway
